import Mathlib

/-!
Shallow embedding of the Omnimart discount-resolution and pricing engine.

The repository implements discount resolution redundantly in several
places; each namespace below embeds one source site:

  * `DiscountLib`      — src/lib/discount.ts (isDiscountValid,
    calculateDiscountedPrice on a record)
  * `UtilsFull`        — the fuller src/lib/utils.ts document
    (getDiscountPercentage with oldPrice inference)
  * `UtilsSimple`      — the simplified src/lib/utils.ts document
    (constant getDiscountPercentage, numeric calculateDiscountedPrice)
  * `ApiUtils`         — src/lib/api-utils.ts (numeric
    calculateDiscountedPrice; fetchDiscounts with the 5-minute cache)
  * `HomePage`         — the Home component of src/unnamed/part_000
    (processedProducts discount matching and pricing)
  * `ProductPage`      — src/app/product/[id]/page.tsx (discount
    matching, pricing, savings, and the countdown window derivation)
  * `RelatedProducts`  — createSafeDiscount of src/unnamed/part_010

JavaScript numbers are modelled as `ℚ` (all quantities in the claims are
exact decimals, far from any floating-point rounding boundary), instants
as `ℤ` (milliseconds), and `new Date(x)` applied to a possibly
unparsable field as `DateVal`: either a parsed instant or `invalid`
(JavaScript Invalid Date, whose numeric comparisons are all false).
Optional fields become `Option`; JavaScript truthiness on a number is
`≠ 0`, on an optional boolean `= some true`, and `x !== false` on an
optional boolean is `≠ some false`.
-/

/-- JavaScript Math.round: for every finite argument it returns
⌊x + 1/2⌋ (half goes toward positive infinity). -/
def jsRound (q : ℚ) : ℤ := ⌊q + 1 / 2⌋

/-- Result of `new Date(v)` on a present field: a parsed instant
(milliseconds) or an Invalid Date. -/
inductive DateVal where
  | parsed (t : ℤ)
  | invalid
deriving DecidableEq, Repr

/-- JavaScript `d <= now` for a Date `d` and a valid instant `now`:
comparisons against an Invalid Date (NaN) are false. -/
def dateLeNow (d : DateVal) (now : ℤ) : Bool :=
  match d with
  | .parsed t => decide (t ≤ now)
  | .invalid => false

/-- JavaScript `now <= d` for a valid instant `now` and a Date `d`:
comparisons against an Invalid Date (NaN) are false. -/
def nowLeDate (now : ℤ) (d : DateVal) : Bool :=
  match d with
  | .parsed t => decide (now ≤ t)
  | .invalid => false

/-- The Discount entity of src/lib/types/entities.ts, restricted to the
fields the pricing code reads.  `mongoId` embeds the `_id` field. -/
structure Discount where
  id : String
  mongoId : Option String := none
  name : Option String := none
  percentage : ℚ
  validFrom : Option DateVal := none
  validTo : Option DateVal := none
  expiresAt : Option DateVal := none
  dtype : String := "sale"
  isActive : Option Bool := none
deriving DecidableEq, Repr

/-- The embedded discount object shape `{name?, percentage, startDate,
endDate, type}` carried inline on a product. -/
structure EmbeddedDiscount where
  name : Option String := none
  percentage : ℚ
  startDate : Option DateVal := none
  endDate : Option DateVal := none
  etype : Option String := none
deriving DecidableEq, Repr

/-- The polymorphic `product.discount` field: absent, a bare number, or
an embedded object. -/
inductive DiscountField where
  | empty
  | num (n : ℚ)
  | obj (e : EmbeddedDiscount)
deriving DecidableEq, Repr

/-- The Product entity, restricted to the fields the pricing code
reads. -/
structure Product where
  id : String
  price : ℚ
  oldPrice : Option ℚ := none
  discountId : Option String := none
  discount : DiscountField := .empty
deriving DecidableEq, Repr

/-- The discount lookup shared by the Home component
(src/unnamed/part_000 lines 35-44) and the product page
(src/app/product/[id]/page.tsx lines 48-55): find the first record of
the list whose `id` or `_id` equals `product.discountId` (the
`toString()` variants coincide with plain equality once both sides are
strings). -/
def findMatchingDiscount (discounts : List Discount) (p : Product) : Option Discount :=
  match p.discountId with
  | none => none
  | some did => discounts.find? (fun d => decide (d.id = did ∨ d.mongoId = some did))

namespace DiscountLib

/-- isDiscountValid of src/lib/discount.ts: false when absent or
explicitly inactive; when both dates are present, the instant must lie
in the window (comparisons against an unparsable date are false) and
the percentage must be positive; when a date is missing, the percentage
alone decides. -/
def isDiscountValid (discount : Option Discount) (now : ℤ) : Bool :=
  match discount with
  | none => false
  | some d =>
    if d.isActive = some false then false
    else
      match d.validFrom, d.validTo with
      | some f, some t => dateLeNow f now && nowLeDate now t && decide (0 < d.percentage)
      | _, _ => decide (0 < d.percentage)

/-- calculateDiscountedPrice of src/lib/discount.ts: absent discount or
zero (falsy) price returns the price unchanged; a positive percentage
yields `Math.round(price * (1 - percentage/100))`. -/
def calculateDiscountedPrice (price : ℚ) (discount : Option Discount) : ℚ :=
  match discount with
  | none => price
  | some d =>
    if price = 0 then price
    else if 0 < d.percentage then (jsRound (price * (1 - d.percentage / 100)) : ℚ)
    else price

end DiscountLib

namespace UtilsFull

/-- The oldPrice-delta branch of getDiscountPercentage in the fuller
src/lib/utils.ts: when `oldPrice` and `price` are truthy and
`oldPrice > price`, return
`Math.round((oldPrice - price) / oldPrice * 100)`, else 0. -/
def inferOldPricePct (p : Product) : ℚ :=
  match p.oldPrice with
  | some op =>
    if op ≠ 0 ∧ p.price ≠ 0 ∧ p.price < op then
      (jsRound ((op - p.price) / op * 100) : ℚ)
    else 0
  | none => 0

/-- getDiscountPercentage of the fuller src/lib/utils.ts: a numeric
`product.discount` is returned as-is; an object with truthy percentage
returns that percentage; otherwise the oldPrice delta is used. -/
def getDiscountPercentage (p : Product) : ℚ :=
  match p.discount with
  | .num n => n
  | .obj e => if e.percentage ≠ 0 then e.percentage else inferOldPricePct p
  | .empty => inferOldPricePct p

end UtilsFull

namespace UtilsSimple

/-- getDiscountPercentage of the simplified src/lib/utils.ts: it
returns 0 for every product. -/
def getDiscountPercentage (_ : Product) : ℚ := 0

/-- hasValidDiscount of the simplified src/lib/utils.ts:
`!!product.discountId`. -/
def hasValidDiscount (p : Product) : Bool := p.discountId.isSome

/-- calculateDiscountedPrice of the simplified src/lib/utils.ts: falsy
percent or falsy price returns the original price, else
`Math.round(originalPrice * (1 - discountPercent/100))`. -/
def calculateDiscountedPrice (originalPrice discountPercent : ℚ) : ℚ :=
  if discountPercent = 0 ∨ originalPrice = 0 then originalPrice
  else (jsRound (originalPrice * (1 - discountPercent / 100)) : ℚ)

end UtilsSimple

namespace ApiUtils

/-- calculateDiscountedPrice of src/lib/api-utils.ts (lines 218-221):
identical to the simplified utils version. -/
def calculateDiscountedPrice (originalPrice discountPercent : ℚ) : ℚ :=
  if discountPercent = 0 ∨ originalPrice = 0 then originalPrice
  else (jsRound (originalPrice * (1 - discountPercent / 100)) : ℚ)

/-- CACHE_EXPIRATION of src/lib/api-utils.ts: five minutes in
milliseconds. -/
def cacheExpiration : ℤ := 5 * 60 * 1000

/-- One entry of the module-level discountsCache: the fetched list and
the `Date.now()` at which it was stored. -/
structure CacheEntry where
  data : List Discount
  timestamp : ℤ
deriving DecidableEq, Repr

/-- fetchDiscounts of src/lib/api-utils.ts (lines 247-275), with the
mutable cache and the outcome of the remote fetch made explicit.
Returns the produced list and the new cache state.  A fresh entry is
served without fetching; on fetch success the cache is replaced; on
fetch failure a stale entry is served if one exists, else the empty
list. -/
def fetchDiscounts (cache : Option CacheEntry) (now : ℤ)
    (fetchResult : Option (List Discount)) : List Discount × Option CacheEntry :=
  match cache with
  | some e =>
    if now - e.timestamp < cacheExpiration then (e.data, some e)
    else
      match fetchResult with
      | some data => (data, some ⟨data, now⟩)
      | none => (e.data, some e)
  | none =>
    match fetchResult with
    | some data => (data, some ⟨data, now⟩)
    | none => ([], none)

end ApiUtils

namespace HomePage

/-- Home of src/unnamed/part_000 (line 47): a product has a discount
iff a record matched and its `isActive !== false`. -/
def hasDiscount (discounts : List Discount) (p : Product) : Bool :=
  match findMatchingDiscount discounts p with
  | some d => decide (d.isActive ≠ some false)
  | none => false

/-- Home of src/unnamed/part_000 (line 50): the percentage of the
matched record when `hasDiscount`, else 0. -/
def discountPercent (discounts : List Discount) (p : Product) : ℚ :=
  match findMatchingDiscount discounts p with
  | some d => if d.isActive ≠ some false then d.percentage else 0
  | none => 0

/-- Home of src/unnamed/part_000 (lines 53-59): the discounted price. -/
def discountedPrice (discounts : List Discount) (p : Product) : ℚ :=
  if hasDiscount discounts p ∧ 0 < discountPercent discounts p then
    (jsRound (p.price * (1 - discountPercent discounts p / 100)) : ℚ)
  else p.price

end HomePage

namespace ProductPage

/-- ProductPage step 4 (src/app/product/[id]/page.tsx line 58):
`hasDiscount = !!discountData?.isActive || hasValidDiscount(product)`,
parameterized over the imported utils hasValidDiscount. -/
def hasDiscount (utilsHasValid : Product → Bool) (discounts : List Discount)
    (p : Product) : Bool :=
  (match findMatchingDiscount discounts p with
   | some d => decide (d.isActive = some true)
   | none => false) || utilsHasValid p

/-- ProductPage step 4 (line 59):
`discountPercent = discountData?.percentage || getDiscountPercentage(product)`,
parameterized over the imported utils getDiscountPercentage; a falsy
(zero) matched percentage falls through to the helper. -/
def discountPercent (utilsGetPct : Product → ℚ) (discounts : List Discount)
    (p : Product) : ℚ :=
  match findMatchingDiscount discounts p with
  | some d => if d.percentage ≠ 0 then d.percentage else utilsGetPct p
  | none => utilsGetPct p

/-- ProductPage line 68: `savingsAmount = Math.max(0, originalPrice -
discountedPrice)`. -/
def savingsAmount (originalPrice discountedPrice : ℚ) : ℚ :=
  max 0 (originalPrice - discountedPrice)

/-- ProductPage line 69: `savingsPercentage = originalPrice > 0 ?
Math.round(savingsAmount / originalPrice * 100) : 0`. -/
def savingsPercentage (originalPrice discountedPrice : ℚ) : ℚ :=
  if 0 < originalPrice then
    (jsRound (savingsAmount originalPrice discountedPrice / originalPrice * 100) : ℚ)
  else 0

/-- ProductPage step 5 (lines 74-90): the countdown window derived from
a matched record.  The defaults are `now` and `now + 7 days`; a present
field replaces its default only when it parses to a valid instant. -/
def deriveWindow (now : ℤ) (d : Discount) : ℤ × ℤ :=
  (match d.validFrom with
   | some (.parsed t) => t
   | _ => now,
   match d.validTo with
   | some (.parsed t) => t
   | _ => now + 7 * 24 * 60 * 60 * 1000)

end ProductPage

namespace RelatedProducts

/-- The oldPrice-inference tier of createSafeDiscount
(src/unnamed/part_010 lines 71-88): when `oldPrice` is truthy and
exceeds `price`, synthesize a record tagged "inferred-discount" whose
percentage is `Math.round((oldPrice - price) / oldPrice * 100)`. -/
def inferredFromOldPrice (now : ℤ) (p : Product) : Option Discount :=
  match p.oldPrice with
  | some op =>
    if op ≠ 0 ∧ p.price < op then
      some { id := "inferred-discount",
             name := some "خصم",
             percentage := (jsRound ((op - p.price) / op * 100) : ℚ),
             validFrom := some (.parsed now),
             validTo := some (.parsed (now + 7 * 24 * 60 * 60 * 1000)),
             isActive := some true }
    else none
  | none => none

/-- createSafeDiscount of src/unnamed/part_010 (lines 16-92): tiers are
discountId, embedded object, positive bare number, oldPrice inference.
The discountId tier takes its percentage from the embedded object (0
when absent); the object tier parses the embedded dates, defaulting to
`now` / `now + 7 days` when absent. -/
def createSafeDiscount (now : ℤ) (p : Product) : Option Discount :=
  match p.discountId with
  | some did =>
    some { id := did,
           name := some "خصم",
           percentage := (match p.discount with | .obj e => e.percentage | _ => 0),
           validFrom := some (.parsed now),
           validTo := some (.parsed (now + 7 * 24 * 60 * 60 * 1000)),
           isActive := some true }
  | none =>
    match p.discount with
    | .obj e =>
      some { id := "temp-discount",
             name := some (e.name.getD "خصم"),
             percentage := e.percentage,
             validFrom := some (e.startDate.getD (.parsed now)),
             validTo := some (e.endDate.getD (.parsed (now + 7 * 24 * 60 * 60 * 1000))),
             isActive := some true }
    | .num n =>
      if 0 < n then
        some { id := "temp-discount",
               name := some "خصم",
               percentage := n,
               validFrom := some (.parsed now),
               validTo := some (.parsed (now + 7 * 24 * 60 * 60 * 1000)),
               isActive := some true }
      else inferredFromOldPrice now p
    | .empty => inferredFromOldPrice now p

end RelatedProducts

/-- Evaluation principle for jsRound at a concrete value. -/
lemma jsRound_eq {q : ℚ} {z : ℤ} (h1 : (z : ℚ) ≤ q + 1 / 2) (h2 : q + 1 / 2 < z + 1) :
    jsRound q = z := by
  rw [jsRound, Int.floor_eq_iff]
  exact ⟨h1, h2⟩

/-- Concrete instances used by the theorems below. -/
def c1rec : Discount := { id := "ref20", percentage := 20, isActive := some true }

def c1emb : EmbeddedDiscount := { percentage := 50 }

def c1prod : Product :=
  { id := "p1", price := 1000, discountId := some "ref20", discount := .obj c1emb }

def c2rec : Discount :=
  { id := "d2", percentage := 30, validFrom := some (.parsed 0),
    validTo := some (.parsed 100), isActive := some true }

def c2prod : Product := { id := "p2", price := 1000, discountId := some "d2" }

def c3rec : Discount :=
  { id := "d3", percentage := 30, validFrom := some .invalid, validTo := some .invalid }

def c3recMissing : Discount := { id := "d3b", percentage := 30 }

def c4discount : Discount := { id := "d4", percentage := 15, isActive := some true }

def c5prod : Product := { id := "p5", price := 800, oldPrice := some 1000 }

def c8dLow : Discount := { id := "low", percentage := 10, isActive := some true }

def c8dHigh : Discount := { id := "high", percentage := 20, isActive := some true }

def c9rec : Discount := { id := "d9", percentage := 25, validFrom := some .invalid }

/-- Claim C1: in the product page resolution, when the discountId lookup
in the supplied list finds an active record of percentage 20, the
resolved percentage is 20 — the reference match wins over the embedded
object of percentage 50 carried by the product — and the product counts
as discounted, whichever utils helpers the page imports for its
fallbacks. -/
theorem c1_reference_match_wins
    (utilsGetPct : Product → ℚ) (utilsHasValid : Product → Bool)
    (discounts : List Discount) (p : Product) (d : Discount) (e : EmbeddedDiscount)
    (hfind : findMatchingDiscount discounts p = some d)
    (hact : d.isActive = some true) (hpct : d.percentage = 20)
    (hobj : p.discount = .obj e) (h50 : e.percentage = 50) :
    ProductPage.discountPercent utilsGetPct discounts p = 20 ∧
    ProductPage.hasDiscount utilsHasValid discounts p = true := by
  constructor
  · simp only [ProductPage.discountPercent, hfind, hpct]
    norm_num
  · simp [ProductPage.hasDiscount, hfind, hact]

/-- Witness for C1 at a concrete product and discount list. -/
theorem c1_witness :
    ProductPage.discountPercent UtilsFull.getDiscountPercentage [c1rec] c1prod = 20 ∧
    ProductPage.hasDiscount UtilsSimple.hasValidDiscount [c1rec] c1prod = true :=
  c1_reference_match_wins UtilsFull.getDiscountPercentage UtilsSimple.hasValidDiscount
    [c1rec] c1prod c1rec c1emb rfl rfl rfl rfl rfl

/-- Claim C2 counterexample: the record matched by `discountId` is
active with percentage 30 but the reference instant 200 is past its
`validTo = 100`, so the Validity Evaluator rejects it — yet the Home
resolution still reports a discount of 30. `isActive` alone is the
gate, contrary to the claim. -/
theorem c2_counterexample :
    HomePage.hasDiscount [c2rec] c2prod = true ∧
    HomePage.discountPercent [c2rec] c2prod = 30 ∧
    DiscountLib.isDiscountValid (some c2rec) 200 = false := by
  refine ⟨by decide, ?_, ?_⟩
  · simp [HomePage.discountPercent, findMatchingDiscount, c2rec, c2prod, List.find?]
  · simp [DiscountLib.isDiscountValid, c2rec, dateLeNow, nowLeDate]

/-- Claim C2 amended: in the Home resolution a matched record is
applied iff its `isActive` is not explicitly false; neither the
validity window nor the percentage is re-checked, and the applied
percentage is the record's own. -/
theorem c2_amended_isActive_gate (discounts : List Discount) (p : Product) (d : Discount)
    (hfind : findMatchingDiscount discounts p = some d) :
    (HomePage.hasDiscount discounts p = true ↔ d.isActive ≠ some false) ∧
    (d.isActive ≠ some false → HomePage.discountPercent discounts p = d.percentage) := by
  constructor
  · simp [HomePage.hasDiscount, hfind]
  · intro h
    simp [HomePage.discountPercent, hfind, h]

/-- Witness for the amended C2 at a concrete list and product. -/
theorem c2_witness : HomePage.discountPercent [c2rec] c2prod = c2rec.percentage :=
  (c2_amended_isActive_gate [c2rec] c2prod c2rec rfl).2 (by simp [c2rec])

/-- Claim C3 counterexample: a discount with positive percentage whose
`validFrom`/`validTo` are both present but unparsable is rejected by
the Validity Evaluator (comparisons against an Invalid Date are false),
whereas the claim demands it be accepted by percentage alone. -/
theorem c3_counterexample :
    DiscountLib.isDiscountValid (some c3rec) 0 = false ∧ (0 : ℚ) < c3rec.percentage := by
  constructor
  · simp [DiscountLib.isDiscountValid, c3rec, dateLeNow]
  · norm_num [c3rec]

/-- Claim C3 amended: for a discount not explicitly inactive, a missing
`validFrom` or `validTo` makes the evaluator decide by
`percentage > 0` alone, but dates that are present and unparsable make
it return false; no exception is thrown in either case (the evaluator
is a total function). -/
theorem c3_amended_dates (d : Discount) (now : ℤ) (hact : d.isActive ≠ some false) :
    ((d.validFrom = none ∨ d.validTo = none) →
      DiscountLib.isDiscountValid (some d) now = decide (0 < d.percentage)) ∧
    (∀ f t, d.validFrom = some f → d.validTo = some t →
      (f = DateVal.invalid ∨ t = DateVal.invalid) →
      DiscountLib.isDiscountValid (some d) now = false) := by
  constructor
  · rintro (h | h)
    · simp [DiscountLib.isDiscountValid, hact, h]
    · cases hvf : d.validFrom <;> simp [DiscountLib.isDiscountValid, hact, h, hvf]
  · rintro f t hf ht (hi | hi) <;> subst hi <;>
      simp [DiscountLib.isDiscountValid, hact, hf, ht, dateLeNow, nowLeDate]

/-- Witness for the amended C3 at a concrete discount with missing
dates. -/
theorem c3_witness :
    DiscountLib.isDiscountValid (some c3recMissing) 0 = decide (0 < c3recMissing.percentage) :=
  (c3_amended_dates c3recMissing 0 (by simp [c3recMissing])).1 (Or.inl rfl)

/-- Claim C4: for originalPrice 2999 and a valid 15% discount the
calculator yields 2549, the savings are 450, and the savings percentage
is 15. -/
theorem c4_rounding_case :
    DiscountLib.calculateDiscountedPrice 2999 (some c4discount) = 2549 ∧
    ProductPage.savingsAmount 2999 2549 = 450 ∧
    ProductPage.savingsPercentage 2999 2549 = 15 := by
  have hm : ProductPage.savingsAmount 2999 2549 = 450 := by
    rw [ProductPage.savingsAmount, max_def]
    norm_num
  have h2 : jsRound ((450 : ℚ) / 2999 * 100) = 15 :=
    jsRound_eq (by norm_num) (by norm_num)
  refine ⟨?_, hm, ?_⟩
  · norm_num [DiscountLib.calculateDiscountedPrice, c4discount]
    rw [show jsRound ((50983 : ℚ) / 20) = 2549 from jsRound_eq (by norm_num) (by norm_num)]
    norm_num
  · rw [ProductPage.savingsPercentage, if_pos (by norm_num : (0 : ℚ) < 2999), hm, h2]
    norm_num

/-- Claim C5: a product with price 800 and oldPrice 1000 and no other
discount signal resolves, in both the utils percentage helper and the
related-products synthesizer, to a synthesized 20% discount. -/
theorem c5_inference_fallback :
    UtilsFull.getDiscountPercentage c5prod = 20 ∧
    (RelatedProducts.createSafeDiscount 0 c5prod).map Discount.percentage = some 20 ∧
    (RelatedProducts.createSafeDiscount 0 c5prod).map Discount.id = some "inferred-discount" := by
  have h : jsRound (20 : ℚ) = 20 := jsRound_eq (by norm_num) (by norm_num)
  refine ⟨?_, ?_, ?_⟩ <;>
    norm_num [UtilsFull.getDiscountPercentage, UtilsFull.inferOldPricePct,
      RelatedProducts.createSafeDiscount, RelatedProducts.inferredFromOldPrice, c5prod, h]

/-- Claim C6: once the discounts cache was populated, a later call
whose entry has outlived the 5-minute TTL and whose remote fetch fails
still returns the stale cached list; only with no cache entry at all
does a failed fetch yield the empty list. -/
theorem c6_stale_on_error (d0 : List Discount) (t0 now : ℤ)
    (hstale : ApiUtils.cacheExpiration ≤ now - t0) :
    (ApiUtils.fetchDiscounts (some ⟨d0, t0⟩) now none).1 = d0 ∧
    (ApiUtils.fetchDiscounts none now none).1 = [] := by
  constructor
  · simp only [ApiUtils.fetchDiscounts]
    rw [if_neg (not_lt.mpr hstale)]
  · rfl

/-- Witness for C6: cache populated at time 0, queried at the TTL
boundary 300000 with a failing fetch. -/
theorem c6_witness : (ApiUtils.fetchDiscounts (some ⟨[c2rec], 0⟩) 300000 none).1 = [c2rec] :=
  (c6_stale_on_error [c2rec] 0 300000 (by norm_num [ApiUtils.cacheExpiration])).1

/-- Claim C7 counterexample: a negative original price is not clamped
to 0 — both numeric calculators return
`Math.round(-100 * 0.85) = -85`, a negative output. -/
theorem c7_counterexample :
    ApiUtils.calculateDiscountedPrice (-100) 15 = -85 ∧
    ApiUtils.calculateDiscountedPrice (-100) 15 < 0 ∧
    DiscountLib.calculateDiscountedPrice (-100) (some c4discount) = -85 := by
  have h : jsRound (-85 : ℚ) = -85 := jsRound_eq (by norm_num) (by norm_num)
  refine ⟨?_, ?_, ?_⟩ <;>
    norm_num [ApiUtils.calculateDiscountedPrice, DiscountLib.calculateDiscountedPrice,
      c4discount, h]

/-- Claim C7 amended: the calculator performs no clamping: for a
negative price and a percentage in (0, 100] it returns
`round(price * (1 - pct/100))` unchanged, a value that is never
positive and can be strictly negative. -/
theorem c7_amended_no_clamp (price pct : ℚ) (hneg : price < 0) (hp : 0 < pct)
    (hp100 : pct ≤ 100) :
    ApiUtils.calculateDiscountedPrice price pct = (jsRound (price * (1 - pct / 100)) : ℚ) ∧
    ApiUtils.calculateDiscountedPrice price pct ≤ 0 := by
  have hcond : ¬(pct = 0 ∨ price = 0) := by
    push_neg
    exact ⟨ne_of_gt hp, ne_of_lt hneg⟩
  have heq : ApiUtils.calculateDiscountedPrice price pct
      = (jsRound (price * (1 - pct / 100)) : ℚ) := by
    rw [ApiUtils.calculateDiscountedPrice, if_neg hcond]
  refine ⟨heq, ?_⟩
  rw [heq]
  have hx : price * (1 - pct / 100) ≤ 0 := by nlinarith
  have hhalf : ⌊((0 : ℚ) + 1 / 2)⌋ = 0 := by
    rw [Int.floor_eq_iff]
    norm_num
  have h2 : jsRound (price * (1 - pct / 100)) ≤ 0 := by
    have := Int.floor_le_floor
      (show price * (1 - pct / 100) + 1 / 2 ≤ (0 : ℚ) + 1 / 2 by linarith)
    rw [hhalf] at this
    exact this
  exact_mod_cast h2

/-- Witness for the amended C7 at price -100 and percentage 15. -/
theorem c7_witness : ApiUtils.calculateDiscountedPrice (-100) 15 ≤ 0 :=
  (c7_amended_no_clamp (-100) 15 (by norm_num) (by norm_num) (by norm_num)).2

/-- Claim C8: for a fixed nonnegative original price, raising the
percentage of a valid discount (positive, at most 100) never raises the
discounted price. -/
theorem c8_monotonicity (price : ℚ) (hprice : 0 ≤ price) (d1 d2 : Discount)
    (h1 : 0 < d1.percentage) (h12 : d1.percentage ≤ d2.percentage)
    (h100 : d2.percentage ≤ 100) :
    DiscountLib.calculateDiscountedPrice price (some d2) ≤
      DiscountLib.calculateDiscountedPrice price (some d1) := by
  have h2 : 0 < d2.percentage := lt_of_lt_of_le h1 h12
  by_cases hp : price = 0
  · simp [DiscountLib.calculateDiscountedPrice, hp]
  · simp only [DiscountLib.calculateDiscountedPrice]
    rw [if_neg hp, if_neg hp, if_pos h2, if_pos h1]
    have hx : price * (1 - d2.percentage / 100) ≤ price * (1 - d1.percentage / 100) :=
      mul_le_mul_of_nonneg_left (by linarith) hprice
    simp only [jsRound]
    exact_mod_cast Int.floor_le_floor (by linarith)

/-- Witness for C8 at price 1000 with percentages 10 and 20. -/
theorem c8_witness :
    DiscountLib.calculateDiscountedPrice 1000 (some c8dHigh) ≤
      DiscountLib.calculateDiscountedPrice 1000 (some c8dLow) :=
  c8_monotonicity 1000 (by norm_num) c8dLow c8dHigh (by norm_num [c8dLow])
    (by norm_num [c8dLow, c8dHigh]) (by norm_num [c8dHigh])

/-- Claim C9: the product page window derivation maps an unparsable
`validFrom` and an absent `validTo` to the defaults `now` and
`now + 7 days`; the derivation is a total function, so no exception is
possible. -/
theorem c9_derive_window_defaults (now : ℤ) (d : Discount)
    (hf : d.validFrom = some DateVal.invalid) (ht : d.validTo = none) :
    ProductPage.deriveWindow now d = (now, now + 7 * 24 * 60 * 60 * 1000) := by
  simp [ProductPage.deriveWindow, hf, ht]

/-- Witness for C9 at instant 0 on a concrete record. -/
theorem c9_witness : ProductPage.deriveWindow 0 c9rec = (0, 0 + 7 * 24 * 60 * 60 * 1000) :=
  c9_derive_window_defaults 0 c9rec rfl rfl

/-- Claim C10: the simplified utils getDiscountPercentage is constantly
0, so the pricing path built on it always returns the original price
unchanged. -/
theorem c10_simplified_zero (p : Product) (originalPrice : ℚ) :
    UtilsSimple.getDiscountPercentage p = 0 ∧
    UtilsSimple.calculateDiscountedPrice originalPrice (UtilsSimple.getDiscountPercentage p)
      = originalPrice := by
  constructor
  · rfl
  · simp [UtilsSimple.calculateDiscountedPrice, UtilsSimple.getDiscountPercentage]
